import Mathlib

/-!
Verification of the sensor-to-status derivation pipeline of the ESP32
Solar Panel Monitor firmware (src/sketch_feb5a.ino and src/SolarPanel.ino).

The pipeline is: raw ADC code -> resistance estimate -> temperature
(Steinhart-Hart, single B coefficient) -> light percentage (linear remap
with clamp) -> status classification -> telemetry state update.

Machine `float` arithmetic is idealised: exact rational arithmetic (`ℚ`)
for the resistance and light computations, real arithmetic (`ℝ`) with
`Real.log` for the Steinhart-Hart conversion.  Arduino `map` uses C++
`long` division, which truncates toward zero; this is modelled with
`Int.tdiv` (not Lean's `/` on `ℤ`, which is euclidean division).
-/

namespace SolarPanel

/-- `const float SERIES_RESISTOR = 10000.0;` -/
def SERIES_RESISTOR : ℚ := 10000

/-- `const float ADC_MAX = 4095.0;` -/
def ADC_MAX : ℚ := 4095

/-- `const float NOMINAL_RESISTANCE = 10000.0;` -/
def NOMINAL_RESISTANCE : ℝ := 10000

/-- `const float NOMINAL_TEMPERATURE = 25.0;` -/
def NOMINAL_TEMPERATURE : ℝ := 25

/-- `const float B_COEFFICIENT = 3950.0;` -/
def B_COEFFICIENT : ℝ := 3950

/-- `const float TEMP_THRESHOLD = 32.5;` (SolarPanel.ino, web-dashboard variant). -/
def TEMP_THRESHOLD : ℝ := 32.5

/-- `const float TEMP_THRESHOLD = 30.0;` (sketch_feb5a.ino, serial-only variant). -/
def TEMP_THRESHOLD_SKETCH : ℝ := 30

/-- Resistance estimation from the raw thermistor ADC code
(`loop` in both sketches):
`if (adcTherm == 0) resistance = 1000000; else if (adcTherm >= ADC_MAX)
resistance = 0; else resistance = SERIES_RESISTOR / ((ADC_MAX / (float)adcTherm) - 1);` -/
def resistance (adcTherm : ℕ) : ℚ :=
  if adcTherm = 0 then 1000000
  else if ADC_MAX ≤ (adcTherm : ℚ) then 0
  else SERIES_RESISTOR / (ADC_MAX / (adcTherm : ℚ) - 1)

/-- Steinhart-Hart single-B-coefficient conversion applied to the resistance
estimate (`loop` in both sketches):
`steinhart = resistance / NOMINAL_RESISTANCE; steinhart = log(steinhart);
steinhart /= B_COEFFICIENT; steinhart += 1.0 / (NOMINAL_TEMPERATURE + 273.15);
steinhart = 1.0 / steinhart; steinhart -= 273.15;` -/
noncomputable def temperatureC (adcTherm : ℕ) : ℝ :=
  1 / (Real.log (((resistance adcTherm : ℚ) : ℝ) / NOMINAL_RESISTANCE) / B_COEFFICIENT
        + 1 / (NOMINAL_TEMPERATURE + 273.15)) - 273.15

/-- Arduino `long map(long x, long in_min, long in_max, long out_min, long out_max)`:
`(x - in_min) * (out_max - out_min) / (in_max - in_min) + out_min`, where `/` is
C++ `long` division (truncation toward zero, hence `Int.tdiv`). -/
def map (x in_min in_max out_min out_max : ℤ) : ℤ :=
  Int.tdiv ((x - in_min) * (out_max - out_min)) (in_max - in_min) + out_min

/-- `if (lightPercent < 0) lightPercent = 0;` -/
def clampLow (p : ℤ) : ℤ := if p < 0 then 0 else p

/-- `if (lightPercent > 100) lightPercent = 100;` -/
def clampHigh (p : ℤ) : ℤ := if p > 100 then 100 else p

/-- Light percentage from the raw photoresistor ADC code (`loop` in both
sketches): `long lightPercent = map(adcLDR, 4095, 0, 0, 100);` followed by the
two clamping statements. -/
def lightPercent (adcLDR : ℕ) : ℤ :=
  clampHigh (clampLow (map (adcLDR : ℤ) 4095 0 0 100))

/-- Status classification of SolarPanel.ino (web-dashboard variant):
`if (currentTemp > TEMP_THRESHOLD) currentStatus = "WARNING: HIGH TEMP!";
else currentStatus = "System Normal";` -/
noncomputable def classify (tempC : ℝ) : String :=
  if tempC > TEMP_THRESHOLD then "WARNING: HIGH TEMP!" else "System Normal"

/-- Status classification of sketch_feb5a.ino (serial-only variant):
`String statusMsg = "OK"; if (steinhart > TEMP_THRESHOLD)
statusMsg = "WARNING: HIGH TEMP!";` -/
noncomputable def statusMsg (steinhart : ℝ) : String :=
  if steinhart > TEMP_THRESHOLD_SKETCH then "WARNING: HIGH TEMP!" else "OK"

/-- The process-wide mutable telemetry state of SolarPanel.ino:
`float currentTemp = 0.0; int currentLightPercent = 0;
String currentStatus = "OK";` -/
structure State where
  currentTemp : ℝ
  currentLightPercent : ℤ
  currentStatus : String

/-- The initial values of the globals, before the first sampling tick. -/
def initState : State := { currentTemp := 0, currentLightPercent := 0, currentStatus := "OK" }

/-- One sampling tick of `loop` in SolarPanel.ino: reads the two raw ADC
codes, recomputes temperature, light percentage and status, and overwrites
the three globals.  The previous state is discarded entirely. -/
noncomputable def loopStep (_s : State) (adcTherm adcLDR : ℕ) : State :=
  { currentTemp := temperatureC adcTherm
    currentLightPercent := lightPercent adcLDR
    currentStatus := classify (temperatureC adcTherm) }

/-- Reachable telemetry states: the initial state, plus anything produced by
some sequence of sampling ticks with arbitrary raw ADC inputs. -/
inductive Reachable : State → Prop
  | init : Reachable initState
  | step (s : State) (adcTherm adcLDR : ℕ) : Reachable s → Reachable (loopStep s adcTherm adcLDR)

/-- Modelled from the spec (section 4.3, claim C6 wording): the light
percentage as the NEAREST integer to `100 − (raw/ADC_MAX)·100`.  Used only to
compare the spec's rounding wording against the source's truncation. -/
def specLightPercent (adcLDR : ℕ) : ℤ :=
  round ((100 : ℚ) - (adcLDR : ℚ) / 4095 * 100)

/-- C1: the resistance estimate maps 0 to the open-circuit sentinel 1000000,
every code at or above ADC_MAX to 0, and every code strictly between to
`SERIES_RESISTOR / (ADC_MAX / rawCode - 1)`. -/
theorem claim1_resistance_cases :
    resistance 0 = 1000000 ∧
    (∀ r : ℕ, 4095 ≤ r → resistance r = 0) ∧
    (∀ r : ℕ, 0 < r → r < 4095 →
      resistance r = SERIES_RESISTOR / (ADC_MAX / (r : ℚ) - 1)) := by
  refine ⟨rfl, ?_, ?_⟩
  · intro r hr
    have h0 : r ≠ 0 := by omega
    have hq : ADC_MAX ≤ (r : ℚ) := by
      unfold ADC_MAX
      exact_mod_cast hr
    unfold resistance
    rw [if_neg h0, if_pos hq]
  · intro r h1 h2
    have h0 : r ≠ 0 := by omega
    have hq : ¬ ADC_MAX ≤ (r : ℚ) := by
      unfold ADC_MAX
      push_neg
      exact_mod_cast h2
    unfold resistance
    rw [if_neg h0, if_neg hq]

/-- Witness for C1 at concrete inputs r = 4095 and r = 2048. -/
theorem claim1_witness :
    resistance 4095 = 0 ∧ resistance 2048 = SERIES_RESISTOR / (ADC_MAX / (2048 : ℚ) - 1) :=
  ⟨claim1_resistance_cases.2.1 4095 (by decide),
   claim1_resistance_cases.2.2 2048 (by decide) (by decide)⟩

/-- Closed form of the interior branch: for `0 < r < 4095`,
`resistance r = 10000 * r / (4095 - r)`. -/
lemma resistance_eq_closed (r : ℕ) (h1 : 0 < r) (h2 : r < 4095) :
    resistance r = 10000 * (r : ℚ) / (4095 - (r : ℚ)) := by
  have h0 : r ≠ 0 := by omega
  have hrq : (0 : ℚ) < (r : ℚ) := by exact_mod_cast h1
  have hrq2 : (r : ℚ) < 4095 := by exact_mod_cast h2
  unfold resistance SERIES_RESISTOR ADC_MAX
  rw [if_neg h0, if_neg (not_le.mpr hrq2)]
  rw [div_sub_one (by positivity), div_div_eq_mul_div]

/-- On the interior raw-code range the resistance estimate is strictly
INCREASING in the raw code (shared helper for C2 and C3). -/
lemma resistance_lt_resistance (r1 r2 : ℕ) (h1 : 0 < r1) (h12 : r1 < r2) (h2 : r2 < 4095) :
    resistance r1 < resistance r2 := by
  rw [resistance_eq_closed r1 h1 (by omega), resistance_eq_closed r2 (by omega) h2]
  have q1 : (0 : ℚ) < (r1 : ℚ) := by exact_mod_cast h1
  have q12 : (r1 : ℚ) < (r2 : ℚ) := by exact_mod_cast h12
  have q2 : (r2 : ℚ) < 4095 := by exact_mod_cast h2
  rw [div_lt_div_iff₀ (by linarith) (by linarith)]
  nlinarith

/-- Interior resistance values are strictly positive (shared helper). -/
lemma resistance_pos (r : ℕ) (h1 : 0 < r) (h2 : r < 4095) : 0 < resistance r := by
  rw [resistance_eq_closed r h1 h2]
  have q1 : (0 : ℚ) < (r : ℚ) := by exact_mod_cast h1
  have q2 : (r : ℚ) < 4095 := by exact_mod_cast h2
  exact div_pos (by positivity) (by linarith)

/-- Interior resistance values are bounded below by `10000 / 4096`
(shared helper, used for the positivity of the Steinhart-Hart inverse). -/
lemma resistance_lower_bound (r : ℕ) (h1 : 0 < r) (h2 : r < 4095) :
    10000 / 4096 ≤ resistance r := by
  rw [resistance_eq_closed r h1 h2]
  have q1 : (1 : ℚ) ≤ (r : ℚ) := by exact_mod_cast h1
  have q2 : (r : ℚ) < 4095 := by exact_mod_cast h2
  rw [div_le_div_iff₀ (by norm_num) (by linarith)]
  nlinarith

/-- C2 counterexample: at r1 = 1, r2 = 2 (both in the open interval
(0, ADC_MAX)) the resistance estimate is strictly smaller at the smaller
raw code, so it is NOT strictly decreasing as claimed. -/
theorem claim2_counterexample : resistance 1 < resistance 2 := by
  unfold resistance SERIES_RESISTOR ADC_MAX
  norm_num

/-- C2 (amended): on the open interval (0, ADC_MAX) the resistance estimate
is strictly INCREASING in the raw code: for 0 < r1 < r2 < ADC_MAX,
resistance r1 < resistance r2. -/
theorem claim2_resistance_strict_increasing (r1 r2 : ℕ)
    (h1 : 0 < r1) (h12 : r1 < r2) (h2 : r2 < 4095) :
    resistance r1 < resistance r2 :=
  resistance_lt_resistance r1 r2 h1 h12 h2

/-- Witness for the amended C2 at r1 = 100, r2 = 200. -/
theorem claim2_witness : resistance 100 < resistance 200 :=
  claim2_resistance_strict_increasing 100 200 (by decide) (by decide) (by decide)

/-- The logarithm of the resistance-to-nominal ratio is bounded below by
`-(12 log 2)` on the interior raw-code range (shared helper). -/
lemma log_ratio_lower_bound (r : ℕ) (h1 : 0 < r) (h2 : r < 4095) :
    -(12 * Real.log 2) ≤ Real.log (((resistance r : ℚ) : ℝ) / NOMINAL_RESISTANCE) := by
  have hlb : (10000 / 4096 : ℚ) ≤ resistance r := resistance_lower_bound r h1 h2
  have hlbR : ((10000 / 4096 : ℚ) : ℝ) ≤ ((resistance r : ℚ) : ℝ) := by exact_mod_cast hlb
  have hcast : ((10000 / 4096 : ℚ) : ℝ) = 10000 / 4096 := by push_cast; ring
  have hx : (1 / 4096 : ℝ) ≤ ((resistance r : ℚ) : ℝ) / NOMINAL_RESISTANCE := by
    unfold NOMINAL_RESISTANCE
    rw [hcast] at hlbR
    linarith
  have h1eq : Real.log (1 / 4096 : ℝ) = -(12 * Real.log 2) := by
    rw [one_div, Real.log_inv, show (4096 : ℝ) = 2 ^ (12 : ℕ) by norm_num, Real.log_pow]
    norm_num
  rw [← h1eq]
  exact Real.log_le_log (by norm_num) hx

/-- The Steinhart-Hart inverse-temperature term is strictly positive on the
interior raw-code range (shared helper: it justifies taking `1 / _` in a
monotone way). -/
lemma steinhart_denom_pos (r : ℕ) (h1 : 0 < r) (h2 : r < 4095) :
    0 < Real.log (((resistance r : ℚ) : ℝ) / NOMINAL_RESISTANCE) / B_COEFFICIENT
        + 1 / (NOMINAL_TEMPERATURE + 273.15) := by
  have hlog := log_ratio_lower_bound r h1 h2
  have h2lt := Real.log_two_lt_d9
  unfold B_COEFFICIENT NOMINAL_TEMPERATURE
  norm_num
  linarith

/-- On the interior raw-code range the derived temperature is strictly
DECREASING in the raw code (shared helper for C3). -/
lemma temperatureC_strict_decreasing (r1 r2 : ℕ)
    (h1 : 0 < r1) (h12 : r1 < r2) (h2 : r2 < 4095) :
    temperatureC r2 < temperatureC r1 := by
  have hres : resistance r1 < resistance r2 := resistance_lt_resistance r1 r2 h1 h12 h2
  have hp1 : (0 : ℝ) < ((resistance r1 : ℚ) : ℝ) := by
    exact_mod_cast resistance_pos r1 h1 (by omega)
  have hresR : ((resistance r1 : ℚ) : ℝ) < ((resistance r2 : ℚ) : ℝ) := by exact_mod_cast hres
  have hNR : (0 : ℝ) < NOMINAL_RESISTANCE := by unfold NOMINAL_RESISTANCE; norm_num
  have hlog : Real.log (((resistance r1 : ℚ) : ℝ) / NOMINAL_RESISTANCE)
      < Real.log (((resistance r2 : ℚ) : ℝ) / NOMINAL_RESISTANCE) := by
    apply Real.log_lt_log (div_pos hp1 hNR)
    gcongr
  have hd1 := steinhart_denom_pos r1 h1 (by omega)
  have hB : (0 : ℝ) < B_COEFFICIENT := by unfold B_COEFFICIENT; norm_num
  have hdd : Real.log (((resistance r1 : ℚ) : ℝ) / NOMINAL_RESISTANCE) / B_COEFFICIENT
        + 1 / (NOMINAL_TEMPERATURE + 273.15)
      < Real.log (((resistance r2 : ℚ) : ℝ) / NOMINAL_RESISTANCE) / B_COEFFICIENT
        + 1 / (NOMINAL_TEMPERATURE + 273.15) := by gcongr
  unfold temperatureC
  exact sub_lt_sub_right (one_div_lt_one_div_of_lt hd1 hdd) _

/-- C3 counterexample: for the raw codes 1 < 2 (both in (0, ADC_MAX)) the
derived temperature is strictly SMALLER at the larger raw code, so the
temperature is not monotonically increasing in the raw code as claimed. -/
theorem claim3_counterexample : temperatureC 2 < temperatureC 1 :=
  temperatureC_strict_decreasing 1 2 (by decide) (by decide) (by decide)

/-- C3 (amended): the derived temperature is strictly DECREASING in the raw
thermistor code on (0, ADC_MAX): resistance is strictly increasing in the raw
code, and the Steinhart-Hart formula is decreasing in resistance. -/
theorem claim3_temperature_strict_decreasing (r1 r2 : ℕ)
    (h1 : 0 < r1) (h12 : r1 < r2) (h2 : r2 < 4095) :
    temperatureC r2 < temperatureC r1 :=
  temperatureC_strict_decreasing r1 r2 h1 h12 h2

/-- Witness for the amended C3 at r1 = 1000, r2 = 3000. -/
theorem claim3_witness : temperatureC 3000 < temperatureC 1000 :=
  claim3_temperature_strict_decreasing 1000 3000 (by decide) (by decide) (by decide)

/-- C4: in both variants the classifier returns the warning status exactly
when the temperature is strictly above the threshold, and returns the
variant's normal status at the threshold itself. -/
theorem claim4_classifier_strict :
    ((∀ t : ℝ, classify t = "WARNING: HIGH TEMP!" ↔ t > TEMP_THRESHOLD) ∧
      classify TEMP_THRESHOLD = "System Normal") ∧
    ((∀ t : ℝ, statusMsg t = "WARNING: HIGH TEMP!" ↔ t > TEMP_THRESHOLD_SKETCH) ∧
      statusMsg TEMP_THRESHOLD_SKETCH = "OK") := by
  refine ⟨⟨?_, ?_⟩, ?_, ?_⟩
  · intro t
    constructor
    · intro h
      by_contra hlt
      unfold classify at h
      rw [if_neg hlt] at h
      exact absurd h (by decide)
    · intro h
      unfold classify
      rw [if_pos h]
  · unfold classify
    rw [if_neg (lt_irrefl _)]
  · intro t
    constructor
    · intro h
      by_contra hlt
      unfold statusMsg at h
      rw [if_neg hlt] at h
      exact absurd h (by decide)
    · intro h
      unfold statusMsg
      rw [if_pos h]
  · unfold statusMsg
    rw [if_neg (lt_irrefl _)]

/-- C5: the light percentage is 100 at raw code 0, 0 at raw code 4095, and an
integer in [0, 100] for every raw code in [0, 4095]. -/
theorem claim5_lightPercent_range :
    lightPercent 0 = 100 ∧ lightPercent 4095 = 0 ∧
    (∀ r : ℕ, r ≤ 4095 → 0 ≤ lightPercent r ∧ lightPercent r ≤ 100) := by
  refine ⟨by decide, by decide, ?_⟩
  intro r _
  unfold lightPercent clampHigh clampLow
  split_ifs <;> omega

/-- Witness for C5 at the concrete raw code 2048. -/
theorem claim5_witness : 0 ≤ lightPercent 2048 ∧ lightPercent 2048 ≤ 100 :=
  claim5_lightPercent_range.2.2 2048 (by decide)

/-- C6 counterexample: at raw code 1 the source computes 99 (C++ integer
division truncates), while the nearest integer to 100 − (1/4095)·100 =
99.9755... is 100.  So the light percentage is not the NEAREST integer to the
linear map. -/
theorem claim6_counterexample : lightPercent 1 = 99 ∧ specLightPercent 1 = 100 := by
  refine ⟨by decide, ?_⟩
  unfold specLightPercent
  rw [round_eq]
  rw [show (100 : ℚ) - ((1 : ℕ) : ℚ) / 4095 * 100 + 1 / 2
      = ((822895 : ℤ) : ℚ) / ((8190 : ℕ) : ℚ) by push_cast; norm_num]
  rw [Rat.floor_intCast_div_natCast]
  decide

/-- C6 (amended): for every raw code in [0, ADC_MAX] the light percentage is
the FLOOR (truncation) of 100 − (raw/ADC_MAX)·100, not the nearest integer. -/
theorem claim6_lightPercent_floor (r : ℕ) (hr : r ≤ 4095) :
    lightPercent r = ⌊(100 : ℚ) - (r : ℚ) / 4095 * 100⌋ := by
  have hrz : (r : ℤ) ≤ 4095 := by exact_mod_cast hr
  have hnum : (0 : ℤ) ≤ 409500 - 100 * (r : ℤ) := by omega
  have hmap : map (r : ℤ) 4095 0 0 100 = (409500 - 100 * (r : ℤ)) / 4095 := by
    unfold map
    have e1 : ((r : ℤ) - 4095) * (100 - 0) = -(409500 - 100 * (r : ℤ)) := by ring
    have e2 : (0 - 4095 : ℤ) = -(4095) := by norm_num
    rw [e1, e2, Int.neg_tdiv, Int.tdiv_neg, neg_neg,
      Int.tdiv_eq_ediv hnum (by norm_num)]
    ring
  have hq0 : (0 : ℤ) ≤ (409500 - 100 * (r : ℤ)) / 4095 := Int.ediv_nonneg hnum (by norm_num)
  have hq100 : (409500 - 100 * (r : ℤ)) / 4095 ≤ 100 := by
    have h := Int.ediv_le_ediv (by norm_num : (0 : ℤ) < 4095)
      (show 409500 - 100 * (r : ℤ) ≤ 409500 by omega)
    omega
  have hfloor : ⌊(100 : ℚ) - (r : ℚ) / 4095 * 100⌋ = (409500 - 100 * (r : ℤ)) / 4095 := by
    have e3 : (100 : ℚ) - (r : ℚ) / 4095 * 100
        = ((409500 - 100 * (r : ℤ) : ℤ) : ℚ) / ((4095 : ℕ) : ℚ) := by
      push_cast
      field_simp
      ring
    rw [e3, Rat.floor_intCast_div_natCast]
    norm_num
  unfold lightPercent clampHigh clampLow
  rw [hmap, if_neg (by omega), if_neg (by omega), hfloor]

/-- Witness for the amended C6 at raw code 2048 (which yields 49, the floor of
49.987...). -/
theorem claim6_witness : lightPercent 2048 = ⌊(100 : ℚ) - ((2048 : ℕ) : ℚ) / 4095 * 100⌋ :=
  claim6_lightPercent_floor 2048 (by decide)

/-- The sentinel temperature at raw code 0 lies strictly between −56 °C and
−45 °C (its value is ≈ −51.9 °C).  Shared helper: `log 100` is bracketed by
`6 log 2 < log 100 < 7 log 2` using the decimal bounds on `log 2`. -/
lemma temperatureC_zero_between : -56 < temperatureC 0 ∧ temperatureC 0 < -45 := by
  have heq : temperatureC 0 = 1 / (Real.log 100 / 3950 + 1 / 298.15) - 273.15 := by
    unfold temperatureC NOMINAL_RESISTANCE B_COEFFICIENT NOMINAL_TEMPERATURE
    norm_num [resistance]
  have h64 : Real.log 64 = 6 * Real.log 2 := by
    rw [show (64 : ℝ) = 2 ^ (6 : ℕ) by norm_num, Real.log_pow]
    norm_num
  have h128 : Real.log 128 = 7 * Real.log 2 := by
    rw [show (128 : ℝ) = 2 ^ (7 : ℕ) by norm_num, Real.log_pow]
    norm_num
  have hlo : 6 * Real.log 2 < Real.log 100 := by
    rw [← h64]
    exact Real.log_lt_log (by norm_num) (by norm_num)
  have hhi : Real.log 100 < 7 * Real.log 2 := by
    rw [← h128]
    exact Real.log_lt_log (by norm_num) (by norm_num)
  have l2lt := Real.log_two_lt_d9
  have l2gt := Real.log_two_gt_d9
  have hLlo : (4.1588830818 : ℝ) < Real.log 100 := by linarith
  have hLhi : Real.log 100 < (4.8520302656 : ℝ) := by linarith
  have hDlo : (0.0044 : ℝ) < Real.log 100 / 3950 + 1 / 298.15 := by linarith
  have hDhi : Real.log 100 / 3950 + 1 / 298.15 < (0.00459 : ℝ) := by linarith
  have hDpos : (0 : ℝ) < Real.log 100 / 3950 + 1 / 298.15 := by linarith
  have h1 : 1 / (0.00459 : ℝ) < 1 / (Real.log 100 / 3950 + 1 / 298.15) :=
    one_div_lt_one_div_of_lt hDpos hDhi
  have h2 : 1 / (Real.log 100 / 3950 + 1 / 298.15) < 1 / (0.0044 : ℝ) :=
    one_div_lt_one_div_of_lt (by norm_num) hDlo
  have hc1 : (217.15 : ℝ) < 1 / (0.00459 : ℝ) := by norm_num
  have hc2 : 1 / (0.0044 : ℝ) < (228.15 : ℝ) := by norm_num
  rw [heq]
  constructor
  · linarith
  · linarith

/-- C7 counterexample: the temperature at raw code 0 lies strictly between
−56 °C and −45 °C (it is ≈ −51.9 °C), so it is NOT approximately −86.7 °C as
claimed — the claimed value is more than 30 °C away. -/
theorem claim7_counterexample : -56 < temperatureC 0 ∧ temperatureC 0 < -45 :=
  temperatureC_zero_between

/-- C7 (amended): at raw code 0 (open-circuit sentinel, resistance 1000000 Ω)
the derived temperature is exactly
`1 / (log (1000000 / 10000) / 3950 + 1 / 298.15) − 273.15`, which is
approximately −51.9 °C — provably strictly between −56 °C and −45 °C — and
not −86.7 °C. -/
theorem claim7_temperature_at_zero :
    (temperatureC 0 = 1 / (Real.log (1000000 / 10000) / 3950 + 1 / 298.15) - 273.15) ∧
    -56 < temperatureC 0 ∧ temperatureC 0 < -45 := by
  refine ⟨?_, temperatureC_zero_between⟩
  unfold temperatureC NOMINAL_RESISTANCE B_COEFFICIENT NOMINAL_TEMPERATURE
  norm_num [resistance]

/-- C8: in every reachable telemetry state the status string that
`handleReadings` serializes verbatim into the /readings JSON payload is
exactly "OK", exactly "System Normal", or a string containing the substring
"WARNING". -/
theorem claim8_status_strings (s : State) (h : Reachable s) :
    s.currentStatus = "OK" ∨ s.currentStatus = "System Normal" ∨
      List.IsInfix "WARNING".data s.currentStatus.data := by
  induction h with
  | init => exact Or.inl rfl
  | step s adcTherm adcLDR _ _ =>
    by_cases hc : temperatureC adcTherm > TEMP_THRESHOLD
    · refine Or.inr (Or.inr ?_)
      show List.IsInfix "WARNING".data (classify (temperatureC adcTherm)).data
      unfold classify
      rw [if_pos hc]
      decide
    · refine Or.inr (Or.inl ?_)
      show classify (temperatureC adcTherm) = "System Normal"
      unfold classify
      rw [if_neg hc]

/-- Witness for C8 at the initial state (status "OK"). -/
theorem claim8_witness :
    initState.currentStatus = "OK" ∨ initState.currentStatus = "System Normal" ∨
      List.IsInfix "WARNING".data initState.currentStatus.data :=
  claim8_status_strings initState Reachable.init

/-- C9: the derivation pipeline is deterministic and has no hidden state —
one sampling tick run from any two starting states with the same pair of raw
ADC inputs produces identical temperature, light percentage and status. -/
theorem claim9_pipeline_deterministic (s1 s2 : State) (adcTherm adcLDR : ℕ) :
    (loopStep s1 adcTherm adcLDR).currentTemp = (loopStep s2 adcTherm adcLDR).currentTemp ∧
    (loopStep s1 adcTherm adcLDR).currentLightPercent
      = (loopStep s2 adcTherm adcLDR).currentLightPercent ∧
    (loopStep s1 adcTherm adcLDR).currentStatus = (loopStep s2 adcTherm adcLDR).currentStatus :=
  ⟨rfl, rfl, rfl⟩

/-- C10: in every reachable state — including the initial one with
currentTemp = 0.0 and currentStatus = "OK" — the stored status contains the
substring "WARNING" exactly when the stored temperature is strictly above
TEMP_THRESHOLD. -/
theorem claim10_warning_iff_hot (s : State) (h : Reachable s) :
    List.IsInfix "WARNING".data s.currentStatus.data ↔ s.currentTemp > TEMP_THRESHOLD := by
  induction h with
  | init =>
    show List.IsInfix "WARNING".data "OK".data ↔ (0 : ℝ) > TEMP_THRESHOLD
    constructor
    · intro hinf
      exact absurd hinf (by decide)
    · intro htemp
      exact absurd htemp (by unfold TEMP_THRESHOLD; norm_num)
  | step s adcTherm adcLDR _ _ =>
    show List.IsInfix "WARNING".data (classify (temperatureC adcTherm)).data ↔
      temperatureC adcTherm > TEMP_THRESHOLD
    unfold classify
    by_cases hc : temperatureC adcTherm > TEMP_THRESHOLD
    · rw [if_pos hc]
      exact ⟨fun _ => hc, fun _ => by decide⟩
    · rw [if_neg hc]
      exact ⟨fun hinf => absurd hinf (by decide), fun htemp => absurd htemp hc⟩

/-- Witness for C10 at the initial state. -/
theorem claim10_witness :
    List.IsInfix "WARNING".data initState.currentStatus.data ↔
      initState.currentTemp > TEMP_THRESHOLD :=
  claim10_warning_iff_hot initState Reachable.init

end SolarPanel
